import Mathlib

/-!
Verification development for the TrafficWiz repository.

The file embeds the severity handling, the road-risk aggregation query, the
health badge and the Risk-page severity-source selection directly from the
sources (src/db/queries.sql, src/unnamed/part_006, src/unnamed/part_009,
src/frontend/src/Pages/Risk.jsx).  The ingestion engine and the classifier
training guard live in backend Python files that are not part of src/, so
those two components are modelled from the specification (spec.md sections
4.2 and 4.5) on top of the ingestion SQL queries that are present.
-/

namespace TrafficWiz

/-- Hour of day (0-23) and MySQL DAYOFWEEK value (1 = Sunday .. 7 = Saturday)
of an incident timestamp; the only two pieces of the DATETIME the embedded
queries inspect. -/
structure DateTime where
  hour : Nat
  dow : Nat
deriving DecidableEq, Repr

/-- Row of the traffic_incidents table (src/db/queries.sql INSERT column list:
external_id, date, location, latitude, longitude, severity, incident_type,
description, delay_seconds, end_time), with the store-assigned surrogate id.
Coordinates and incident_type play no role in any embedded query and are
omitted. -/
structure Incident where
  id : Nat
  external_id : Option String
  date : Option DateTime
  location : String
  severity : String
  description : String
  delay_seconds : Option Int
  end_time : Option Nat
deriving DecidableEq, Repr

/-- Record fetched from the external feed: upstream id, upstream numeric
severity code, and the remaining mapped fields (spec section 6, RawIncident). -/
structure RawIncident where
  external_id : Option String
  severityCode : Int
  date : Option DateTime
  location : String
  description : String
  delay_seconds : Option Int
  end_time : Option Nat
deriving DecidableEq, Repr

/-- Severity label mapping of the traffic page (src/unnamed/part_006,
getSeverityLabel): codes 0 and 1 map to Low, 2 and 3 to Medium, 4 and 5 to
High, and every other code falls to the default branch, which returns
Unknown. -/
def getSeverityLabel (severity : Int) : String :=
  if severity == 0 || severity == 1 then "Low"
  else if severity == 2 || severity == 3 then "Medium"
  else if severity == 4 || severity == 5 then "High"
  else "Unknown"

/-- Numeric severity encoding of the ML training and road-analysis queries
(src/db/queries.sql lines 56-61 and 70-75): CASE WHEN High THEN 3 WHEN Medium
THEN 2 WHEN Low THEN 1 ELSE 0 END. -/
def severityNumeric (severity : String) : Nat :=
  if severity == "High" then 3
  else if severity == "Medium" then 2
  else if severity == "Low" then 1
  else 0

/-- Rush-hour predicate of the road-analysis query (src/db/queries.sql line
76): HOUR(date) BETWEEN 7 AND 9 OR HOUR(date) BETWEEN 16 AND 18; MySQL
BETWEEN is inclusive on both sides. -/
def isRushHour (hour : Nat) : Bool :=
  decide ((7 ≤ hour ∧ hour ≤ 9) ∨ (16 ≤ hour ∧ hour ≤ 18))

/-- Weekend predicate of the road-analysis query (src/db/queries.sql line
77): DAYOFWEEK(date) IN (1, 7). -/
def isWeekend (dow : Nat) : Bool :=
  dow == 1 || dow == 7

/-- Rush-hour flag of a stored row: rows with a null date never match the
HOUR(date) condition. -/
def rushFlag (r : Incident) : Bool :=
  match r.date with
  | some d => isRushHour d.hour
  | none => false

/-- Weekend flag of a stored row. -/
def weekendFlag (r : Incident) : Bool :=
  match r.date with
  | some d => isWeekend d.dow
  | none => false

/-- Minimum sample floor of the road-analysis query (src/db/queries.sql line
81): HAVING total_incidents >= 5. -/
def MIN_SAMPLE : Nat := 5

/-- One row of the road-analysis result set (src/db/queries.sql lines 66-82). -/
structure RoadProfile where
  road : String
  total_incidents : Nat
  avg_severity : ℚ
  rush_hour_incidents : Nat
  weekend_incidents : Nat
deriving DecidableEq, Repr

/-- Aggregates one location group exactly as the SELECT list of the
road-analysis query does: COUNT, AVG of the numeric severity, and the two
conditional SUMs. -/
def mkProfile (loc : String) (g : List Incident) : RoadProfile :=
  { road := loc
    total_incidents := g.length
    avg_severity := (g.map (fun r => (severityNumeric r.severity : ℚ))).sum / (g.length : ℚ)
    rush_hour_incidents := (g.filter rushFlag).length
    weekend_incidents := (g.filter weekendFlag).length }

/-- Distinct keys of a list in order of first appearance, with an accumulator
of keys already emitted. -/
def dedupFirstAux (seen : List String) : List String → List String
  | [] => []
  | x :: xs => if x ∈ seen then dedupFirstAux seen xs else x :: dedupFirstAux (x :: seen) xs

/-- Distinct keys of a list in order of first appearance (the grouping keys
produced by GROUP BY location). -/
def dedupFirst (l : List String) : List String :=
  dedupFirstAux [] l

/-- Inserts an element into a list ordered by a numeric key descending,
keeping earlier elements in front of later equal-key elements. -/
def insertDesc {α : Type} (key : α → Nat) (x : α) : List α → List α
  | [] => [x]
  | y :: ys => if key y ≤ key x then x :: y :: ys else y :: insertDesc key x ys

/-- Stable sort by a numeric key descending. -/
def sortDescBy {α : Type} (key : α → Nat) : List α → List α
  | [] => []
  | x :: xs => insertDesc key x (sortDescBy key xs)

/-- Embedding of the road-specific analysis query (src/db/queries.sql lines
66-82): keep rows WHERE date IS NOT NULL, GROUP BY exact location string,
compute the per-road statistics, keep groups HAVING total_incidents >= 5 and
ORDER BY total_incidents DESC.  MySQL leaves the relative order of groups
with equal counts unspecified; the embedding resolves ties deterministically
by keeping equal-count roads in first-appearance order (stable sort). -/
def roadAnalysis (rows : List Incident) : List RoadProfile :=
  let valid := rows.filter (fun r => r.date.isSome)
  let locs := dedupFirst (valid.map (fun r => r.location))
  let profiles := locs.map (fun loc => mkProfile loc (valid.filter (fun r => r.location == loc)))
  sortDescBy (fun p => p.total_incidents) (profiles.filter (fun p => decide (MIN_SAMPLE ≤ p.total_incidents)))

/-- Number of rows with a non-null date at a given location: the
total_incidents the query would count for that road. -/
def roadIncidentCount (rows : List Incident) (loc : String) : Nat :=
  ((rows.filter (fun r => r.date.isSome)).filter (fun r => r.location == loc)).length

/-- Modelled from the spec: risk_score = total_incidents times avg_severity
(spec section 3, RoadRiskProfile).  The computation lives in
backend/ml/train_model.py, which is not under src/. -/
def riskScore (p : RoadProfile) : ℚ :=
  (p.total_incidents : ℚ) * p.avg_severity

/-- Health test of the StatusBadge component (src/unnamed/part_009 line 22):
ok when the service field or the db field equals the string ok; the source
repeats the db disjunct verbatim. -/
def statusOk (service db : String) : Bool :=
  service == "ok" || db == "ok" || db == "ok"

/-- Text rendered by the StatusBadge for a given health verdict. -/
def badgeText (ok : Bool) : String :=
  if ok then "API: OK" else "API: DOWN"

/-- Badge rendered for the outcome of the health fetch: a response carries
the service and db fields, a thrown fetch (none) sets both fields to down in
the component state before rendering. -/
def statusBadgeRender (fetched : Option (String × String)) : String :=
  match fetched with
  | some (service, db) => badgeText (statusOk service db)
  | none => badgeText (statusOk "down" "down")

/-- Severity distribution the Risk page computes from HERE incident
severities (src/frontend/src/Pages/Risk.jsx lines 63-76): bucket counts for
the numeric severities 4, 3, 2, 1 under the labels Critical, Major, Minor,
Low, keeping only labels with a positive count. -/
def hereSeverityData (severities : List Int) : List (String × Nat) :=
  ([("Critical", (severities.filter (fun s => s == 4)).length),
    ("Major", (severities.filter (fun s => s == 3)).length),
    ("Minor", (severities.filter (fun s => s == 2)).length),
    ("Low", (severities.filter (fun s => s == 1)).length)]).filter
    (fun p => decide (0 < p.2))

/-- Severity-data selection of the Risk page fetchData
(src/frontend/src/Pages/Risk.jsx lines 46-95): severityData starts empty; a
successful HERE lookup with at least one incident replaces it with the HERE
distribution; a thrown lookup is caught and leaves it empty; the database
by-severity data is used exactly when severityData is still empty
afterwards. -/
def riskSeverityData (hereResult : Except Unit (List Int)) (dbData : List (String × Nat)) :
    List (String × Nat) :=
  let severityData :=
    match hereResult with
    | Except.ok incs => if 0 < incs.length then hereSeverityData incs else []
    | Except.error _ => []
  if severityData.length == 0 then dbData else severityData

/-- Per-run counters of an ingestion report (spec section 4.2,
IngestionReport). -/
structure Report where
  fetched : Nat
  inserted : Nat
  updated : Nat
  skipped : Nat
  errors : Nat
deriving DecidableEq, Repr

/-- Row built for the INSERT ingestion query (src/db/queries.sql lines
120-123): the upstream fields are mapped across and the severity code is
normalized to its label; the store assigns the surrogate id. -/
def toIncident (raw : RawIncident) (id : Nat) : Incident :=
  { id := id
    external_id := raw.external_id
    date := raw.date
    location := raw.location
    severity := getSeverityLabel raw.severityCode
    description := raw.description
    delay_seconds := raw.delay_seconds
    end_time := raw.end_time }

/-- Lookup of the dedup query (src/db/queries.sql lines 115-118): SELECT from
traffic_incidents WHERE external_id = ?. -/
def findByExternalId (store : List Incident) (e : String) : Option Incident :=
  store.find? (fun inc => inc.external_id == some e)

/-- Comparison of the mutable fields the spec names for update detection
(spec section 4.2 step 3: severity, location, description, delay,
end_time). -/
def mutableFieldsDiffer (inc : Incident) (raw : RawIncident) : Bool :=
  inc.severity != getSeverityLabel raw.severityCode ||
  inc.location != raw.location ||
  inc.description != raw.description ||
  inc.delay_seconds != raw.delay_seconds ||
  inc.end_time != raw.end_time

/-- Field assignment of the UPDATE ingestion query (src/db/queries.sql lines
125-130): date, location, severity, description, delay_seconds and end_time
are overwritten; id and external_id are untouched. -/
def applyUpdate (inc : Incident) (raw : RawIncident) : Incident :=
  { inc with
    date := raw.date
    location := raw.location
    severity := getSeverityLabel raw.severityCode
    description := raw.description
    delay_seconds := raw.delay_seconds
    end_time := raw.end_time }

/-- In-place update of the row carrying the given external_id. -/
def updateByExternalId (store : List Incident) (e : String) (raw : RawIncident) :
    List Incident :=
  store.map (fun inc => if inc.external_id == some e then applyUpdate inc raw else inc)

/-- Modelled from the spec: one per-record step of the Ingestion Engine run
(spec section 4.2; the engine itself, backend/services/here_data_collector.py,
is not under src/ - only its ingestion SQL queries are).  A record without an
external_id is always inserted; otherwise the store is probed by external_id:
insert when absent, update in place when a mutable field differs, skip
otherwise. -/
def ingestStep (acc : Report × List Incident × Nat) (raw : RawIncident) :
    Report × List Incident × Nat :=
  let (rep, store, nid) := acc
  match raw.external_id with
  | none =>
    ({ rep with inserted := rep.inserted + 1 }, store ++ [toIncident raw nid], nid + 1)
  | some e =>
    match findByExternalId store e with
    | none =>
      ({ rep with inserted := rep.inserted + 1 }, store ++ [toIncident raw nid], nid + 1)
    | some inc =>
      if mutableFieldsDiffer inc raw then
        ({ rep with updated := rep.updated + 1 }, updateByExternalId store e raw, nid)
      else
        ({ rep with skipped := rep.skipped + 1 }, store, nid)

/-- Modelled from the spec: run_once of the Ingestion Engine over an already
fetched feed snapshot (spec section 4.2), threading the store and the next
surrogate id through the per-record steps. -/
def run_once (feed : List RawIncident) (store : List Incident) (nid : Nat) :
    Report × List Incident × Nat :=
  feed.foldl ingestStep
    ({ fetched := feed.length, inserted := 0, updated := 0, skipped := 0, errors := 0 },
      store, nid)

/-- Rows a run inserts for a feed of fresh records, with surrogate ids
assigned sequentially from the given next id. -/
def assignIds : List RawIncident → Nat → List Incident
  | [], _ => []
  | r :: rs, n => toIncident r n :: assignIds rs (n + 1)

/-- Typed training failure (spec section 7). -/
inductive TrainError where
  | insufficientTrainingData
deriving DecidableEq, Repr

/-- Trained-model artifact (spec section 3, ClassifierArtifact): the ordered
feature list, the target name and the split sizes; the fitted model object
and its evaluation metrics are outside the embedding. -/
structure ClassifierArtifact where
  features : List String
  target : String
  n_train : Nat
  n_test : Nat
deriving DecidableEq, Repr

/-- Minimum number of labeled incidents required for training (spec sections
4.5 and 7). -/
def MIN_TRAINING_SAMPLES : Nat := 10

/-- Modelled from the spec: the fitting step of the Severity Classifier (spec
section 4.5; backend/ml/train_model.py is not under src/).  Records the fixed
feature order, the target and the sizes of the fixed 80/20 split. -/
def fitModel (incidents : List Incident) : ClassifierArtifact :=
  { features := ["hour", "day_of_week", "is_weekend", "is_rush_hour"]
    target := "severity_numeric"
    n_train := incidents.length - incidents.length / 5
    n_test := incidents.length / 5 }

/-- Modelled from the spec: train of the Severity Classifier (spec section
4.5): training on fewer labeled incidents than the minimum threshold fails
fast with the typed insufficient-data error before any fitting happens. -/
def train (incidents : List Incident) : Except TrainError ClassifierArtifact :=
  if incidents.length < MIN_TRAINING_SAMPLES then
    Except.error TrainError.insufficientTrainingData
  else
    Except.ok (fitModel incidents)

/-- Whole-system state threaded through the core operations: the incident
store with its next surrogate id, the last aggregated risk profiles and the
current classifier artifact. -/
structure SysState where
  store : List Incident
  nextId : Nat
  profiles : List RoadProfile
  artifact : Option ClassifierArtifact
deriving DecidableEq, Repr

/-- The three core operations of the system (spec sections 4.2, 4.4, 4.5). -/
inductive CoreOp where
  | ingest (feed : List RawIncident)
  | aggregate
  | trainClassifier
deriving Repr

/-- Effect of one core operation on the system state: ingestion writes the
store, aggregation replaces the profile set wholesale, training replaces the
artifact on success and leaves it untouched on failure.  Aggregation and
training never write the store. -/
def applyOp (st : SysState) : CoreOp → SysState
  | CoreOp.ingest feed =>
    let out := run_once feed st.store st.nextId
    { st with store := out.2.1, nextId := out.2.2 }
  | CoreOp.aggregate =>
    { st with profiles := roadAnalysis st.store }
  | CoreOp.trainClassifier =>
    match train st.store with
    | Except.error _ => st
    | Except.ok a => { st with artifact := some a }

/-- Effect of a sequence of core operations. -/
def applyOps (st : SysState) (ops : List CoreOp) : SysState :=
  ops.foldl applyOp st

/-- Presence of a row with the given surrogate id in the store. -/
def idPresent (store : List Incident) (k : Nat) : Bool :=
  store.any (fun inc => inc.id == k)

/-- Stored row fixture used by concrete instances of the claims. -/
def mkRow (loc : String) (sev : String) (h : Nat) : Incident :=
  { id := 0
    external_id := none
    date := some { hour := h, dow := 3 }
    location := loc
    severity := sev
    description := ""
    delay_seconds := none
    end_time := none }

/-- Feed record fixture used by concrete instances of the claims. -/
def mkRaw (e : String) (c : Int) (loc : String) : RawIncident :=
  { external_id := some e
    severityCode := c
    date := some { hour := 8, dow := 3 }
    location := loc
    description := "d"
    delay_seconds := none
    end_time := none }

/-- Incident set with six Low incidents on road A and five High incidents on
road B. -/
def exRowsC3 : List Incident :=
  List.replicate 6 (mkRow "A" "Low" 12) ++ List.replicate 5 (mkRow "B" "High" 12)

/-- Incident set with five Low incidents on road A and five High incidents on
road B: equal counts, different severities. -/
def exRowsC5 : List Incident :=
  List.replicate 5 (mkRow "A" "Low" 12) ++ List.replicate 5 (mkRow "B" "High" 12)

/-- Profile the aggregation computes for road A of exRowsC5. -/
def exProfileA : RoadProfile :=
  mkProfile "A" (List.replicate 5 (mkRow "A" "Low" 12))

/-- Profile the aggregation computes for road B of exRowsC5. -/
def exProfileB : RoadProfile :=
  mkProfile "B" (List.replicate 5 (mkRow "B" "High" 12))

/-- Two-record feed fixture with distinct external ids. -/
def exFeed : List RawIncident :=
  [mkRaw "E1" 4 "I-40", mkRaw "E2" 2 "I-65"]

/-- Store that already holds the single record of the one-element feed. -/
def exStoreC1 : List Incident :=
  [toIncident (mkRaw "E1" 4 "I-40") 1]

/-- Prior classifier artifact fixture. -/
def exArtifact : ClassifierArtifact :=
  { features := ["hour"], target := "severity_numeric", n_train := 8, n_test := 2 }

/-- State with five stored incidents and a previously persisted artifact. -/
def exStateC7 : SysState :=
  { store := List.replicate 5 (mkRow "A" "Low" 12)
    nextId := 6
    profiles := []
    artifact := some exArtifact }

/-- State with one stored incident (surrogate id 0). -/
def exStateC8 : SysState :=
  { store := [mkRow "A" "Low" 12], nextId := 1, profiles := [], artifact := none }

/-- Sequence running each core operation once. -/
def exOps : List CoreOp :=
  [CoreOp.ingest exFeed, CoreOp.aggregate, CoreOp.trainClassifier]

/-- Incident set with four incidents on road A: below the minimum sample
floor. -/
def exRows4 : List Incident := List.replicate 4 (mkRow "A" "Low" 12)

/-- Incident set with exactly five incidents on road A: at the minimum sample
floor. -/
def exRows5 : List Incident := List.replicate 5 (mkRow "A" "Low" 12)

/-- Profile the aggregation computes for road A of exRowsC3. -/
def exProfC3A : RoadProfile := mkProfile "A" (List.replicate 6 (mkRow "A" "Low" 12))

/-- Profile the aggregation computes for road B of exRowsC3. -/
def exProfC3B : RoadProfile := mkProfile "B" (List.replicate 5 (mkRow "B" "High" 12))

/-- Membership of the descending insertion: exactly the inserted element plus
the old elements. -/
theorem mem_insertDesc {α : Type} (key : α → Nat) (x z : α) (l : List α) :
    z ∈ insertDesc key x l ↔ z = x ∨ z ∈ l := by
  induction l with
  | nil => simp [insertDesc]
  | cons y ys ih =>
    simp only [insertDesc]
    split
    · simp [List.mem_cons]
    · simp only [List.mem_cons, ih]
      tauto

/-- The stable descending sort keeps exactly the input elements. -/
theorem mem_sortDescBy {α : Type} (key : α → Nat) (z : α) (l : List α) :
    z ∈ sortDescBy key l ↔ z ∈ l := by
  induction l with
  | nil => simp [sortDescBy]
  | cons x xs ih => simp [sortDescBy, mem_insertDesc, ih]

/-- Inserting into a descending-sorted list keeps it descending-sorted. -/
theorem pairwise_insertDesc {α : Type} (key : α → Nat) (x : α) (l : List α)
    (h : l.Pairwise (fun a b => key b ≤ key a)) :
    (insertDesc key x l).Pairwise (fun a b => key b ≤ key a) := by
  induction l with
  | nil => simp [insertDesc]
  | cons y ys ih =>
    rcases List.pairwise_cons.mp h with ⟨hy, hys⟩
    simp only [insertDesc]
    split
    · next hle =>
      refine List.pairwise_cons.mpr ⟨?_, h⟩
      intro z hz
      rcases List.mem_cons.mp hz with rfl | hz2
      · exact hle
      · exact le_trans (hy z hz2) hle
    · next hgt =>
      push_neg at hgt
      refine List.pairwise_cons.mpr ⟨?_, ih hys⟩
      intro z hz
      rcases (mem_insertDesc key x z ys).mp hz with rfl | hz2
      · exact le_of_lt hgt
      · exact hy z hz2

/-- The stable descending sort produces a descending-sorted list. -/
theorem pairwise_sortDescBy {α : Type} (key : α → Nat) (l : List α) :
    (sortDescBy key l).Pairwise (fun a b => key b ≤ key a) := by
  induction l with
  | nil => simp [sortDescBy]
  | cons x xs ih => exact pairwise_insertDesc key x _ ih

/-- Membership of the dedup worker: the elements of the input not already
seen. -/
theorem mem_dedupFirstAux (l : List String) (seen : List String) (y : String) :
    y ∈ dedupFirstAux seen l ↔ y ∈ l ∧ y ∉ seen := by
  induction l generalizing seen with
  | nil => simp [dedupFirstAux]
  | cons x xs ih =>
    simp only [dedupFirstAux]
    split
    · next hx =>
      rw [ih]
      constructor
      · rintro ⟨hm, hs⟩
        exact ⟨List.mem_cons_of_mem x hm, hs⟩
      · rintro ⟨hm, hs⟩
        rcases List.mem_cons.mp hm with rfl | hm2
        · exact absurd hx hs
        · exact ⟨hm2, hs⟩
    · next hx =>
      constructor
      · intro hy
        rcases List.mem_cons.mp hy with rfl | hy2
        · exact ⟨List.mem_cons_self _ _, hx⟩
        · rcases (ih (x :: seen)).mp hy2 with ⟨hm, hs⟩
          exact ⟨List.mem_cons_of_mem x hm,
            fun hc => hs (List.mem_cons_of_mem x hc)⟩
      · rintro ⟨hm, hs⟩
        by_cases hyx : y = x
        · subst hyx
          exact List.mem_cons_self _ _
        · rcases List.mem_cons.mp hm with rfl | hm2
          · exact absurd rfl hyx
          · refine List.mem_cons_of_mem x ((ih (x :: seen)).mpr ⟨hm2, fun hc => ?_⟩)
            rcases List.mem_cons.mp hc with rfl | hc2
            · exact hyx rfl
            · exact hs hc2

/-- Deduplication keeps exactly the elements of the input. -/
theorem mem_dedupFirst (l : List String) (y : String) :
    y ∈ dedupFirst l ↔ y ∈ l := by
  simp [dedupFirst, mem_dedupFirstAux]

/-- Every profile in the aggregation output satisfies the HAVING floor. -/
theorem roadAnalysis_mem_total (rows : List Incident) (p : RoadProfile)
    (hp : p ∈ roadAnalysis rows) : MIN_SAMPLE ≤ p.total_incidents := by
  simp only [roadAnalysis] at hp
  rw [mem_sortDescBy] at hp
  rcases List.mem_filter.mp hp with ⟨-, hq⟩
  exact of_decide_eq_true hq

/-- C4: a road appears in the aggregated risk profile set exactly when its
incident count (rows with a non-null date at that exact location string) is
at least MIN_SAMPLE = 5; in particular a road with exactly 4 incidents is
excluded and a road with exactly 5 incidents is included. -/
theorem C4_min_sample_floor (rows : List Incident) (loc : String) :
    (((roadAnalysis rows).any (fun p => p.road == loc)) = true ↔
      MIN_SAMPLE ≤ roadIncidentCount rows loc) ∧
    ((roadAnalysis exRows4).any (fun p => p.road == "A")) = false ∧
    ((roadAnalysis exRows5).any (fun p => p.road == "A")) = true := by
  refine ⟨?_, by decide, by decide⟩
  constructor
  · intro h
    rcases List.any_eq_true.mp h with ⟨p, hp, hroad⟩
    have htot := roadAnalysis_mem_total rows p hp
    simp only [roadAnalysis] at hp
    rw [mem_sortDescBy] at hp
    rcases List.mem_filter.mp hp with ⟨hmem, -⟩
    rcases List.mem_map.mp hmem with ⟨loc0, hloc0, rfl⟩
    have hloc : loc0 = loc := eq_of_beq hroad
    subst hloc
    simpa [mkProfile, roadIncidentCount] using htot
  · intro h
    have hpos : 0 < roadIncidentCount rows loc :=
      lt_of_lt_of_le (by decide) h
    obtain ⟨r, hr⟩ := List.exists_mem_of_length_pos hpos
    rcases List.mem_filter.mp hr with ⟨hrv, hrl⟩
    have hlocmem : loc ∈ (rows.filter (fun r => r.date.isSome)).map
        (fun r => r.location) :=
      List.mem_map.mpr ⟨r, hrv, eq_of_beq hrl⟩
    have hdedup := (mem_dedupFirst _ loc).mpr hlocmem
    refine List.any_eq_true.mpr
      ⟨mkProfile loc ((rows.filter (fun r => r.date.isSome)).filter
        (fun r => r.location == loc)), ?_, by simp [mkProfile]⟩
    simp only [roadAnalysis]
    rw [mem_sortDescBy]
    refine List.mem_filter.mpr ⟨List.mem_map.mpr ⟨loc, hdedup, rfl⟩, ?_⟩
    exact decide_eq_true (by simpa [mkProfile, roadIncidentCount] using h)

/-- C3 (amended): the road-to-profile mapping is returned in descending
total_incidents order (the ORDER BY of the query), so taking the first k
entries yields the k roads with the most incidents; it is not ordered by
risk_score. -/
theorem C3_ordering (rows : List Incident) :
    (roadAnalysis rows).Pairwise
      (fun p q => q.total_incidents ≤ p.total_incidents) := by
  simp only [roadAnalysis]
  exact pairwise_sortDescBy _ _

/-- C3 counterexample: on an incident set with six Low incidents on road A
and five High incidents on road B, the aggregation returns road A first even
though its risk_score (6) is strictly below road B's (15), so the returned
order is not descending in risk_score and the first entry is not the
highest-risk road. -/
theorem C3_counterexample :
    roadAnalysis exRowsC3 = [exProfC3A, exProfC3B] ∧
    riskScore exProfC3A < riskScore exProfC3B := by
  refine ⟨rfl, ?_⟩
  have h1 : severityNumeric "Low" = 1 := rfl
  have h3 : severityNumeric "High" = 3 := rfl
  norm_num [exProfC3A, exProfC3B, riskScore, mkProfile, mkRow, List.replicate, h1, h3]

/-- C5 (amended): of two roads in the aggregated profile set with equal
total_incidents, the road with the higher avg_severity has the strictly
higher risk_score = total_incidents times avg_severity; the returned
ordering, however, sorts by total_incidents only, so it need not rank that
road first. -/
theorem C5_risk_ranking (rows : List Incident) (p q : RoadProfile)
    (hp : p ∈ roadAnalysis rows) (hq : q ∈ roadAnalysis rows)
    (htot : p.total_incidents = q.total_incidents)
    (hsev : q.avg_severity < p.avg_severity) :
    riskScore q < riskScore p := by
  have h5 := roadAnalysis_mem_total rows p hp
  have hpos : (0 : ℚ) < (p.total_incidents : ℚ) := by
    exact_mod_cast lt_of_lt_of_le (by decide : 0 < MIN_SAMPLE) h5
  have hmul := mul_lt_mul_of_pos_left hsev hpos
  simp only [riskScore]
  rw [← htot]
  exact hmul

/-- C5 counterexample: with five Low incidents on road A and five High
incidents on road B (equal counts, different severities), the aggregation
returns road A before road B, so the higher-severity road does not rank
first in the returned ordering. -/
theorem C5_counterexample :
    roadAnalysis exRowsC5 = [exProfileA, exProfileB] ∧
    exProfileA.total_incidents = exProfileB.total_incidents ∧
    exProfileA.avg_severity < exProfileB.avg_severity := by
  refine ⟨rfl, rfl, ?_⟩
  have h1 : severityNumeric "Low" = 1 := rfl
  have h3 : severityNumeric "High" = 3 := rfl
  norm_num [exProfileA, exProfileB, mkProfile, mkRow, List.replicate, h1, h3]

/-- C5 witness: the two equal-count profiles of exRowsC5 instantiate the
risk-score comparison. -/
theorem C5_risk_ranking_witness :
    riskScore exProfileA < riskScore exProfileB := by
  have hp : exProfileB ∈ roadAnalysis exRowsC5 := List.Mem.tail _ (List.Mem.head _)
  have hq : exProfileA ∈ roadAnalysis exRowsC5 := List.Mem.head _
  have htot : exProfileB.total_incidents = exProfileA.total_incidents := rfl
  have hsev : exProfileA.avg_severity < exProfileB.avg_severity := by
    have h1 : severityNumeric "Low" = 1 := rfl
    have h3 : severityNumeric "High" = 3 := rfl
    norm_num [exProfileA, exProfileB, mkProfile, mkRow, List.replicate, h1, h3]
  exact C5_risk_ranking exRowsC5 exProfileB exProfileA hp hq htot hsev

/-- C2 counterexample: severity code 6 is mapped to the label Unknown, which
is not the claimed default Low and lies outside the three-bucket taxonomy. -/
theorem C2_counterexample :
    getSeverityLabel 6 = "Unknown" ∧
    ¬(getSeverityLabel 6 = "Low" ∨ getSeverityLabel 6 = "Medium" ∨
      getSeverityLabel 6 = "High") := by
  decide

/-- C2 (amended): the severity mapping is total and never fails: every code
maps to one of Low, Medium, High, Unknown; codes 0-5 map into the
three-bucket taxonomy; every unrecognized code maps to the explicit default
Unknown (not Low); and the SQL severity_numeric CASE maps every severity
string outside High, Medium, Low to 0 (not to Low's value 1). -/
theorem C2_severity_default (c : Int) (s : String) :
    (getSeverityLabel c = "Low" ∨ getSeverityLabel c = "Medium" ∨
      getSeverityLabel c = "High" ∨ getSeverityLabel c = "Unknown") ∧
    ((0 ≤ c ∧ c ≤ 5) →
      (getSeverityLabel c = "Low" ∨ getSeverityLabel c = "Medium" ∨
        getSeverityLabel c = "High")) ∧
    (¬(0 ≤ c ∧ c ≤ 5) → getSeverityLabel c = "Unknown") ∧
    (¬(s = "High" ∨ s = "Medium" ∨ s = "Low") → severityNumeric s = 0) := by
  refine ⟨?_, ?_, ?_, ?_⟩
  · simp only [getSeverityLabel]
    split
    · exact Or.inl rfl
    · split
      · exact Or.inr (Or.inl rfl)
      · split
        · exact Or.inr (Or.inr (Or.inl rfl))
        · exact Or.inr (Or.inr (Or.inr rfl))
  · intro h
    simp only [getSeverityLabel]
    split
    · exact Or.inl rfl
    · split
      · exact Or.inr (Or.inl rfl)
      · split
        · exact Or.inr (Or.inr rfl)
        · next h1 h2 h3 =>
          simp only [Bool.or_eq_true, beq_iff_eq] at h1 h2 h3
          push_neg at h1 h2 h3
          omega
  · intro h
    push_neg at h
    simp only [getSeverityLabel]
    split
    · next h1 =>
      simp only [Bool.or_eq_true, beq_iff_eq] at h1
      omega
    · split
      · next h2 =>
        simp only [Bool.or_eq_true, beq_iff_eq] at h2
        omega
      · split
        · next h3 =>
          simp only [Bool.or_eq_true, beq_iff_eq] at h3
          omega
        · rfl
  · intro h
    push_neg at h
    rcases h with ⟨h1, h2, h3⟩
    simp [severityNumeric, h1, h2, h3]

/-- C2 witness: the default branches evaluated at code 6 and at the label
Unknown. -/
theorem C2_severity_default_witness :
    getSeverityLabel 6 = "Unknown" ∧ severityNumeric "Unknown" = 0 :=
  ⟨(C2_severity_default 6 "Unknown").2.2.1 (by decide),
   (C2_severity_default 6 "Unknown").2.2.2 (by decide)⟩

/-- C6: for every stored incident with a non-null timestamp the rush-hour
flag is true exactly when the hour lies in 7..9 or 16..18 with inclusive
bounds; hours 7, 9, 16 and 18 are classified true, hours 6 and 19 false. -/
theorem C6_rush_hour_boundary :
    (∀ (r : Incident) (d : DateTime), r.date = some d →
      (rushFlag r = true ↔
        ((7 ≤ d.hour ∧ d.hour ≤ 9) ∨ (16 ≤ d.hour ∧ d.hour ≤ 18)))) ∧
    isRushHour 7 = true ∧ isRushHour 9 = true ∧
    isRushHour 16 = true ∧ isRushHour 18 = true ∧
    isRushHour 6 = false ∧ isRushHour 19 = false := by
  refine ⟨fun r d hd => ?_, rfl, rfl, rfl, rfl, rfl, rfl⟩
  simp [rushFlag, hd, isRushHour]

/-- C6 witness: an incident at hour 8 evaluates to a true rush-hour flag. -/
theorem C6_rush_hour_boundary_witness :
    rushFlag (mkRow "I-40" "High" 8) = true :=
  (C6_rush_hour_boundary.1 (mkRow "I-40" "High" 8) { hour := 8, dow := 3 } rfl).mpr
    (Or.inl (by decide))

/-- C9: the StatusBadge renders API OK exactly when the fetched status has
service ok or db ok; in particular a live service with a down database still
renders OK, and a thrown health fetch (both fields down) renders DOWN. -/
theorem C9_status_badge :
    (∀ service db : String,
      statusBadgeRender (some (service, db)) = "API: OK" ↔
        (service = "ok" ∨ db = "ok")) ∧
    statusBadgeRender (some ("ok", "down")) = "API: OK" ∧
    statusBadgeRender none = "API: DOWN" := by
  refine ⟨fun service db => ?_, rfl, rfl⟩
  have hok : statusOk service db = true ↔ (service = "ok" ∨ db = "ok") := by
    simp [statusOk, beq_iff_eq, or_self]
  cases hb : statusOk service db with
  | true =>
    simp only [statusBadgeRender, badgeText, hb, if_true]
    simpa using hok.mp hb
  | false =>
    simp only [statusBadgeRender, badgeText, hb, if_false]
    constructor
    · intro h
      exact absurd h (by decide)
    · intro h
      rw [hok.mpr h] at hb
      cases hb

/-- C10 counterexample: the HERE lookup succeeds and returns one incident
(numeric severity 0), yet every bucket count is zero, the computed
distribution is empty, and the page falls back to the database data. -/
theorem C10_counterexample :
    ([(0 : Int)].length = 1) ∧
    riskSeverityData (Except.ok [(0 : Int)]) [("Low", 7)] = [("Low", 7)] ∧
    hereSeverityData [(0 : Int)] = [] := by
  decide

/-- C10 (amended): the Risk page uses the HERE-computed distribution
(severities 4, 3, 2, 1 bucketed as Critical, Major, Minor, Low with
zero-count labels dropped) whenever that distribution is non-empty, and
falls back to the database by-severity data exactly when the HERE lookup
throws, returns no incidents, or returns only incidents whose severity lies
outside 1..4 (in which case every bucket is empty). -/
theorem C10_severity_source (incs : List Int) (db : List (String × Nat)) :
    riskSeverityData (Except.error ()) db = db ∧
    (hereSeverityData incs = [] → riskSeverityData (Except.ok incs) db = db) ∧
    (hereSeverityData incs ≠ [] →
      riskSeverityData (Except.ok incs) db = hereSeverityData incs) ∧
    (hereSeverityData incs = [] ↔
      ∀ s ∈ incs, s ≠ 1 ∧ s ≠ 2 ∧ s ≠ 3 ∧ s ≠ 4) := by
  refine ⟨rfl, ?_, ?_, ?_⟩
  · intro h
    cases incs with
    | nil => rfl
    | cons a as =>
      simp [riskSeverityData, h]
  · intro h
    cases incs with
    | nil => exact absurd rfl h
    | cons a as =>
      have hlen : ((hereSeverityData (a :: as)).length == 0) = false := by
        rw [beq_eq_false_iff_ne]
        intro hc
        exact h (List.length_eq_zero.mp hc)
      simp [riskSeverityData, hlen]
  · constructor
    · intro h
      simp only [hereSeverityData] at h
      have hall := List.filter_eq_nil_iff.mp h
      have hlen : ∀ (k : Int), (incs.filter (fun s => s == k)).length = 0 →
          ∀ s ∈ incs, s ≠ k := by
        intro k hk s hs hc
        subst hc
        have hmem := List.filter_eq_nil_iff.mp (List.length_eq_zero.mp hk) s hs
        simp at hmem
      have h1 := hall _ (by simp :
        ("Low", (incs.filter (fun s => s == (1 : Int))).length) ∈
          [("Critical", (incs.filter (fun s => s == (4 : Int))).length),
           ("Major", (incs.filter (fun s => s == (3 : Int))).length),
           ("Minor", (incs.filter (fun s => s == (2 : Int))).length),
           ("Low", (incs.filter (fun s => s == (1 : Int))).length)])
      have h2 := hall _ (by simp :
        ("Minor", (incs.filter (fun s => s == (2 : Int))).length) ∈
          [("Critical", (incs.filter (fun s => s == (4 : Int))).length),
           ("Major", (incs.filter (fun s => s == (3 : Int))).length),
           ("Minor", (incs.filter (fun s => s == (2 : Int))).length),
           ("Low", (incs.filter (fun s => s == (1 : Int))).length)])
      have h3 := hall _ (by simp :
        ("Major", (incs.filter (fun s => s == (3 : Int))).length) ∈
          [("Critical", (incs.filter (fun s => s == (4 : Int))).length),
           ("Major", (incs.filter (fun s => s == (3 : Int))).length),
           ("Minor", (incs.filter (fun s => s == (2 : Int))).length),
           ("Low", (incs.filter (fun s => s == (1 : Int))).length)])
      have h4 := hall _ (by simp :
        ("Critical", (incs.filter (fun s => s == (4 : Int))).length) ∈
          [("Critical", (incs.filter (fun s => s == (4 : Int))).length),
           ("Major", (incs.filter (fun s => s == (3 : Int))).length),
           ("Minor", (incs.filter (fun s => s == (2 : Int))).length),
           ("Low", (incs.filter (fun s => s == (1 : Int))).length)])
      simp only [decide_eq_true_eq] at h1 h2 h3 h4
      intro s hs
      exact ⟨hlen 1 (by omega) s hs, hlen 2 (by omega) s hs,
        hlen 3 (by omega) s hs, hlen 4 (by omega) s hs⟩
    · intro h
      simp only [hereSeverityData]
      refine List.filter_eq_nil_iff.mpr ?_
      intro p hp
      have hzero : ∀ (k : Int), (∀ s ∈ incs, s ≠ k) →
          (incs.filter (fun s => s == k)).length = 0 := by
        intro k hk
        rw [List.length_eq_zero]
        refine List.filter_eq_nil_iff.mpr ?_
        intro a ha
        simpa using hk a ha
      rcases List.mem_cons.mp hp with rfl | hp
      · simpa using hzero 4 (fun s hs => (h s hs).2.2.2)
      rcases List.mem_cons.mp hp with rfl | hp
      · simpa using hzero 3 (fun s hs => (h s hs).2.2.1)
      rcases List.mem_cons.mp hp with rfl | hp
      · simpa using hzero 2 (fun s hs => (h s hs).2.1)
      rcases List.mem_cons.mp hp with rfl | hp
      · simpa using hzero 1 (fun s hs => (h s hs).1)
      · exact absurd hp (List.not_mem_nil p)

/-- C10 witness: a successful HERE lookup with one Minor incident keeps the
HERE-computed distribution. -/
theorem C10_severity_source_witness :
    riskSeverityData (Except.ok [(2 : Int)]) [("Low", 7)] = hereSeverityData [(2 : Int)] :=
  (C10_severity_source [(2 : Int)] [("Low", 7)]).2.2.1 (by decide)

/-- Lookup over an appended store: the left part wins, then the right part. -/
theorem findByExternalId_append (s t : List Incident) (e : String) :
    findByExternalId (s ++ t) e = (findByExternalId s e).or (findByExternalId t e) := by
  simp [findByExternalId, List.find?_append]

/-- A freshly inserted row never differs from the record it was built from in
any mutable field. -/
theorem mutableFieldsDiffer_toIncident (raw : RawIncident) (n : Nat) :
    mutableFieldsDiffer (toIncident raw n) raw = false := by
  simp [mutableFieldsDiffer, toIncident]

/-- A singleton store built from a record with a different external_id never
answers the lookup. -/
theorem findByExternalId_toIncident_ne (a : RawIncident) (n : Nat) (e : String)
    (hne : a.external_id ≠ some e) :
    findByExternalId [toIncident a n] e = none := by
  have hbeq : (a.external_id == some e) = false := by
    rw [beq_eq_false_iff_ne]
    exact hne
  simp [findByExternalId, List.find?, toIncident, hbeq]

/-- Looking up a feed record among the rows inserted for a
pairwise-distinct feed finds a row matching it in every mutable field. -/
theorem findByExternalId_assignIds (feed : List RawIncident) (n : Nat)
    (r : RawIncident) (e : String) (hr : r ∈ feed) (he : r.external_id = some e)
    (hdist : feed.Pairwise (fun a b => a.external_id ≠ b.external_id)) :
    ∃ inc, findByExternalId (assignIds feed n) e = some inc ∧
      mutableFieldsDiffer inc r = false := by
  induction feed generalizing n with
  | nil => cases hr
  | cons a as ih =>
    rcases List.pairwise_cons.mp hdist with ⟨ha, has⟩
    rcases List.mem_cons.mp hr with rfl | hr2
    · have hhit : ((toIncident r n).external_id == some e) = true := by
        simp [toIncident, he]
      refine ⟨toIncident r n, ?_, mutableFieldsDiffer_toIncident r n⟩
      simp [assignIds, findByExternalId, List.find?, hhit]
    · have hne : a.external_id ≠ some e := by
        rw [← he]
        exact ha r hr2
      have hbeq : ((toIncident a n).external_id == some e) = false := by
        rw [beq_eq_false_iff_ne]
        exact hne
      have hrec := ih (n + 1) hr2 has
      simpa [assignIds, findByExternalId, List.find?, hbeq] using hrec

/-- A run over a feed of records that all carry pairwise-distinct external
ids not yet present in the store inserts every record and touches nothing
else. -/
theorem run_first_fresh (feed : List RawIncident) (store : List Incident)
    (nid : Nat) (rep : Report)
    (hall : ∀ r ∈ feed, r.external_id ≠ none)
    (hdist : feed.Pairwise (fun a b => a.external_id ≠ b.external_id))
    (hfresh : ∀ r ∈ feed, ∀ e, r.external_id = some e →
      findByExternalId store e = none) :
    feed.foldl ingestStep (rep, store, nid) =
      ({ rep with inserted := rep.inserted + feed.length },
        store ++ assignIds feed nid, nid + feed.length) := by
  induction feed generalizing store nid rep with
  | nil => simp [assignIds]
  | cons a as ih =>
    obtain ⟨e, he⟩ : ∃ e, a.external_id = some e := by
      cases h : a.external_id with
      | none => exact absurd h (hall a (List.mem_cons_self a as))
      | some e => exact ⟨e, rfl⟩
    have hfr : findByExternalId store e = none :=
      hfresh a (List.mem_cons_self a as) e he
    rcases List.pairwise_cons.mp hdist with ⟨ha, has⟩
    have hstep : ingestStep (rep, store, nid) a =
        ({ rep with inserted := rep.inserted + 1 },
          store ++ [toIncident a nid], nid + 1) := by
      simp [ingestStep, he, hfr]
    have hfresh2 : ∀ r ∈ as, ∀ e2, r.external_id = some e2 →
        findByExternalId (store ++ [toIncident a nid]) e2 = none := by
      intro r hr e2 he2
      rw [findByExternalId_append, hfresh r (List.mem_cons_of_mem a hr) e2 he2,
        findByExternalId_toIncident_ne a nid e2 (he2 ▸ ha r hr)]
      rfl
    rw [List.foldl_cons, hstep,
      ih (store ++ [toIncident a nid]) (nid + 1)
        { rep with inserted := rep.inserted + 1 }
        (fun r hr => hall r (List.mem_cons_of_mem a hr)) has hfresh2]
    simp [List.append_assoc, List.singleton_append, assignIds,
      Nat.add_comm, Nat.add_assoc, Nat.add_left_comm]

/-- A run over a feed whose every record is already stored with identical
mutable fields skips every record and leaves the store untouched. -/
theorem run_all_matching (feed : List RawIncident) (store : List Incident)
    (nid : Nat) (rep : Report)
    (hmatch : ∀ r ∈ feed, ∃ e, r.external_id = some e ∧
      ∃ inc, findByExternalId store e = some inc ∧
        mutableFieldsDiffer inc r = false) :
    feed.foldl ingestStep (rep, store, nid) =
      ({ rep with skipped := rep.skipped + feed.length }, store, nid) := by
  induction feed generalizing rep with
  | nil => simp
  | cons a as ih =>
    obtain ⟨e, he, inc, hfind, hdiff⟩ := hmatch a (List.mem_cons_self a as)
    have hstep : ingestStep (rep, store, nid) a =
        ({ rep with skipped := rep.skipped + 1 }, store, nid) := by
      simp [ingestStep, he, hfind, hdiff]
    rw [List.foldl_cons, hstep,
      ih { rep with skipped := rep.skipped + 1 }
        (fun r hr => hmatch r (List.mem_cons_of_mem a hr))]
    simp [Nat.add_comm, Nat.add_assoc, Nat.add_left_comm]

/-- C1 (amended): for a feed snapshot of N records that all carry
pairwise-distinct external ids none of which is already in the store,
running run_once twice in succession reports inserted = N and updated = 0 on
the first call and inserted = 0, updated = 0, skipped = N on the second call
(no upstream field changes between the calls). -/
theorem C1_run_once_idempotent (feed : List RawIncident) (store : List Incident)
    (nid : Nat)
    (hall : ∀ r ∈ feed, r.external_id ≠ none)
    (hdist : feed.Pairwise (fun a b => a.external_id ≠ b.external_id))
    (hfresh : ∀ r ∈ feed, ∀ e, r.external_id = some e →
      findByExternalId store e = none) :
    (run_once feed store nid).1.inserted = feed.length ∧
    (run_once feed store nid).1.updated = 0 ∧
    (run_once feed (run_once feed store nid).2.1
      (run_once feed store nid).2.2).1.inserted = 0 ∧
    (run_once feed (run_once feed store nid).2.1
      (run_once feed store nid).2.2).1.updated = 0 ∧
    (run_once feed (run_once feed store nid).2.1
      (run_once feed store nid).2.2).1.skipped = feed.length := by
  have hfirst := run_first_fresh feed store nid
    { fetched := feed.length, inserted := 0, updated := 0, skipped := 0, errors := 0 }
    hall hdist hfresh
  have hmatch : ∀ r ∈ feed, ∃ e, r.external_id = some e ∧
      ∃ inc, findByExternalId (store ++ assignIds feed nid) e = some inc ∧
        mutableFieldsDiffer inc r = false := by
    intro r hr
    obtain ⟨e, he⟩ : ∃ e, r.external_id = some e := by
      cases h : r.external_id with
      | none => exact absurd h (hall r hr)
      | some e => exact ⟨e, rfl⟩
    obtain ⟨inc, hfind, hdiff⟩ :=
      findByExternalId_assignIds feed nid r e hr he hdist
    refine ⟨e, he, inc, ?_, hdiff⟩
    rw [findByExternalId_append, hfresh r hr e he, hfind]
    rfl
  have hsecond := run_all_matching feed (store ++ assignIds feed nid)
    (nid + feed.length)
    { fetched := feed.length, inserted := 0, updated := 0, skipped := 0, errors := 0 }
    hmatch
  rw [run_once, hfirst]
  rw [run_once]
  simp only []
  rw [hsecond]
  simp

/-- C1 counterexample: for a starting store that already holds the feed's
single record, the first run_once reports inserted = 0 (the record is
skipped), not inserted = N = 1, refuting the claim's quantification over
every starting store state. -/
theorem C1_counterexample :
    ([mkRaw "E1" 4 "I-40"].length = 1) ∧
    (run_once [mkRaw "E1" 4 "I-40"] exStoreC1 2).1.inserted = 0 ∧
    (run_once [mkRaw "E1" 4 "I-40"] exStoreC1 2).1.skipped = 1 := by
  decide

/-- C1 witness: the two-record feed against the empty store. -/
theorem C1_run_once_idempotent_witness :
    (run_once exFeed [] 0).1.inserted = 2 ∧
    (run_once exFeed [] 0).1.updated = 0 ∧
    (run_once exFeed (run_once exFeed [] 0).2.1
      (run_once exFeed [] 0).2.2).1.inserted = 0 ∧
    (run_once exFeed (run_once exFeed [] 0).2.1
      (run_once exFeed [] 0).2.2).1.updated = 0 ∧
    (run_once exFeed (run_once exFeed [] 0).2.1
      (run_once exFeed [] 0).2.2).1.skipped = 2 :=
  C1_run_once_idempotent exFeed [] 0 (by decide) (by decide)
    (fun r hr e he => rfl)

/-- C7: training on fewer labeled incidents than the minimum threshold of 10
fails fast with the typed insufficient-data error, and the system state -
including any previously persisted classifier artifact - is left completely
unchanged. -/
theorem C7_insufficient_training_guard (st : SysState)
    (h : st.store.length < MIN_TRAINING_SAMPLES) :
    train st.store = Except.error TrainError.insufficientTrainingData ∧
    applyOp st CoreOp.trainClassifier = st := by
  have ht : train st.store = Except.error TrainError.insufficientTrainingData := by
    simp [train, h]
  exact ⟨ht, by simp [applyOp, ht]⟩

/-- C7 witness: training on a five-incident store with a previously
persisted artifact errors and keeps the state. -/
theorem C7_insufficient_training_guard_witness :
    train exStateC7.store = Except.error TrainError.insufficientTrainingData ∧
    applyOp exStateC7 CoreOp.trainClassifier = exStateC7 :=
  C7_insufficient_training_guard exStateC7 (by decide)

/-- An in-place update never changes which surrogate ids are present. -/
theorem idPresent_updateByExternalId (store : List Incident) (e : String)
    (raw : RawIncident) (k : Nat) :
    idPresent (updateByExternalId store e raw) k = idPresent store k := by
  simp only [idPresent, updateByExternalId, List.any_map]
  congr 1
  funext inc
  simp only [Function.comp_apply]
  split <;> rfl

/-- One ingestion step preserves every surrogate id present in the store. -/
theorem idPresent_ingestStep (rep : Report) (store : List Incident) (nid : Nat)
    (raw : RawIncident) (k : Nat) (h : idPresent store k = true) :
    idPresent (ingestStep (rep, store, nid) raw).2.1 k = true := by
  cases hext : raw.external_id with
  | none =>
    simp only [ingestStep, hext, idPresent, List.any_append]
    rw [idPresent] at h
    simp [h]
  | some e =>
    cases hfind : findByExternalId store e with
    | none =>
      simp only [ingestStep, hext, hfind, idPresent, List.any_append]
      rw [idPresent] at h
      simp [h]
    | some inc =>
      simp only [ingestStep, hext, hfind]
      by_cases hd : mutableFieldsDiffer inc raw = true
      · simp only [hd, if_true]
        rw [idPresent_updateByExternalId]
        exact h
      · simp only [Bool.not_eq_true] at hd
        simp [hd, h]

/-- A whole ingestion run preserves every surrogate id present in the
store. -/
theorem idPresent_run (feed : List RawIncident) (rep : Report)
    (store : List Incident) (nid : Nat) (k : Nat)
    (h : idPresent store k = true) :
    idPresent (feed.foldl ingestStep (rep, store, nid)).2.1 k = true := by
  induction feed generalizing rep store nid with
  | nil => exact h
  | cons a as ih =>
    rw [List.foldl_cons]
    have hstep := idPresent_ingestStep rep store nid a k h
    rcases hout : ingestStep (rep, store, nid) a with ⟨rep2, store2, nid2⟩
    rw [hout] at hstep
    exact ih rep2 store2 nid2 hstep

/-- Each single core operation preserves every surrogate id present in the
store. -/
theorem idPresent_applyOp (st : SysState) (op : CoreOp) (k : Nat)
    (h : idPresent st.store k = true) :
    idPresent (applyOp st op).store k = true := by
  cases op with
  | ingest feed =>
    exact idPresent_run feed _ st.store st.nextId k h
  | aggregate => exact h
  | trainClassifier =>
    simp only [applyOp]
    cases htrain : train st.store with
    | error e => exact h
    | ok a => exact h

/-- C8: no core operation (ingestion run, risk aggregation, classifier
training) ever deletes a row: every incident row present in the store,
identified by its immutable surrogate id, is still present after any
sequence of core operations. -/
theorem C8_no_deletion (ops : List CoreOp) (st : SysState) (k : Nat)
    (h : idPresent st.store k = true) :
    idPresent (applyOps st ops).store k = true := by
  induction ops generalizing st with
  | nil => exact h
  | cons op ops ih =>
    rw [applyOps, List.foldl_cons]
    exact ih (applyOp st op) (idPresent_applyOp st op k h)

/-- C8 witness: the stored row with id 0 survives an ingestion run, an
aggregation and a training attempt. -/
theorem C8_no_deletion_witness :
    idPresent (applyOps exStateC8 exOps).store 0 = true :=
  C8_no_deletion exOps exStateC8 0 (by decide)

end TrafficWiz
